import Mathlib

/-
Verification development for the pytrainer activity-data layer
(pytrainer/lib/activity.py).

The activity module is embedded shallowly:
  * Python floats are modelled as rationals (ℚ); the claims under study are
    exact arithmetic relationships, not rounding behaviour.
  * Python ints are modelled as ℤ (or ℕ for indices).
  * The mutable `Activity` object is modelled as explicit state
    (`ActivityState`) produced by a pure construction function
    (`activityInit`) over an environment (`Env`) that holds everything the
    constructor reads from its collaborators (database rows, parsed GPX
    data, profile configuration).
  * Python dicts keyed by series-name strings are modelled as association
    lists keyed by the closed enum `SeriesName` (one constructor per string
    key that appears in the source), in insertion order.
  * Fallible code returns `Except` / `Option`.
External collaborators that are not part of the repository's sources
(unit-conversion helpers, the GraphData container, the Date helper) are
modelled from the specification; their definitions carry a
`Modelled from the spec:` doc comment.
-/

namespace Pytrainer

/-! ## Unit conversion helpers (pytrainer.lib.unitsconversor, not in src) -/

/-- Modelled from the spec: `km2miles` from the unit-conversion module
(absent from the sources). The spec fixes the km→miles factor 0.621371. -/
def km2miles (x : ℚ) : ℚ := x * (621371 / 1000000)

/-- Modelled from the spec: `pacekm2miles` converts a pace in min/km to
min/mile using the same 0.621371 factor applied end-to-end (spec §8),
i.e. dividing by the km→miles factor. -/
def pacekm2miles (x : ℚ) : ℚ := x / (621371 / 1000000)

/-- Modelled from the spec: `m2feet` from the unit-conversion module
(absent from the sources); metres to feet, factor 1/0.3048. -/
def m2feet (x : ℚ) : ℚ := x * (10000 / 3048)

/-! ## Model of Python float() parsing

`float(str)` on a decimal literal: optional surrounding whitespace,
optional sign, digits with at most one decimal point, at least one digit.
Exponent, infinity and nan forms are not modelled (no input of this code
uses them). Parse failure (ValueError) is `none`. -/

/-- Numeric value of a digit list, most significant first. -/
def digitsVal (cs : List Char) : ℕ :=
  cs.foldl (fun acc c => acc * 10 + (c.toNat - '0'.toNat)) 0

/-- Strip leading and trailing whitespace from a character list (the
whitespace tolerance of CPython `float`). -/
def trimChars (cs : List Char) : List Char :=
  ((cs.dropWhile Char.isWhitespace).reverse.dropWhile Char.isWhitespace).reverse

/-- Python `str.replace` for a single-character pattern (the only shape the
activity module uses): substitute every occurrence. -/
def replaceChar (pat repl : Char) (s : String) : String :=
  String.mk (s.data.map (fun c => if c = pat then repl else c))

/-- Character-level decoding stage of CPython `float(s)`: sign, integer
part, fractional part, and number of fractional digits. `none` is a
ValueError. -/
def pyFloatDecode (s : String) : Option (Bool × ℕ × ℕ × ℕ) :=
  let cs := trimChars s.data
  let signBody : Bool × List Char :=
    match cs with
    | '-' :: r => (true, r)
    | '+' :: r => (false, r)
    | r => (false, r)
  match signBody.2.splitOn '.' with
  | [ip] =>
    if !ip.isEmpty && ip.all Char.isDigit then some (signBody.1, digitsVal ip, 0, 0) else none
  | [ip, fp] =>
    if (!ip.isEmpty || !fp.isEmpty) && ip.all Char.isDigit && fp.all Char.isDigit then
      some (signBody.1, digitsVal ip, digitsVal fp, fp.length)
    else none
  | _ => none

/-- Model of CPython `float(s)` for decimal literals; `none` is ValueError. -/
def pyFloatParse (s : String) : Option ℚ :=
  (pyFloatDecode s).map (fun r =>
    let v : ℚ := (r.2.1 : ℚ) + (r.2.2.1 : ℚ) / (10 : ℚ) ^ r.2.2.2
    if r.1 then -v else v)

/-- `Activity._float`: coerce a database value to float, `0.0` on any
conversion error. Database numerics are modelled as already-typed optional
rationals, so the only failure mode left is a NULL (`none`). -/
def _float (value : Option ℚ) : ℚ := value.getD 0

/-- `Activity._int`: coerce a database value to int, `0` on any conversion
error; NULL (`none`) becomes `0`. -/
def _int (value : Option ℤ) : ℤ := value.getD 0

/-! ## Pace string encoding (activity.py lines 668-686) -/

/-- `Activity.pace_to_float`: take a mm:ss or mm.ss string, substitute the
separator, and convert with `float()`; `none` models the ValueError path
returning None. -/
def pace_to_float (value : String) : Option ℚ :=
  pyFloatParse (replaceChar ':' '.' value)

/-- Model of CPython `"%0.2f" % q`: two fixed decimal places. Rounding of
exact half cases differs from IEEE-double formatting; no input of this
development hits a half case. -/
def formatFixed2 (q : ℚ) : String :=
  let n : ℤ := ⌊q * 100 + 1 / 2⌋
  let sign := if n < 0 then "-" else ""
  let m := n.natAbs
  let frac := m % 100
  sign ++ toString (m / 100) ++ "." ++ (if frac < 10 then "0" else "") ++ toString frac

/-- `Activity.pace_from_float`: generate mm:ss from the float encoding.
A falsy argument (Python None, or 0) yields the empty string; otherwise the
value is formatted to two decimals and `.` is replaced by `:`. The source's
ValueError fallback (`str(value)`) is unreachable for numeric input. -/
def pace_from_float (value : Option ℚ) : String :=
  match value with
  | none => ""
  | some q => if q = 0 then "" else replaceChar '.' ':' (formatFixed2 q)

/-! ## Per-point derivations (activity.py lines 470-482) -/

/-- Pace derivation for one trackpoint (lines 470-478): `60/velocity` with
the pace-limit clamp, all inside a `try` whose handler sets pace to 0.
`none` models a missing/non-numeric velocity (TypeError caught by the same
handler); velocity 0 is the ZeroDivisionError path. -/
def pointPace (velocity : Option ℚ) (pace_limit : Option ℚ) : ℚ :=
  match velocity with
  | none => 0
  | some v =>
    if v = 0 then 0
    else
      let pace := 60 / v
      match pace_limit with
      | some lim => if pace > lim then 0 else pace
      | none => pace

/-- Heart-rate percentage for one trackpoint (lines 479-482):
`float(hr)/maxhr*100` inside a `try` whose handler yields 0; the
ZeroDivisionError case is `maxhr = 0`. -/
def hrPercent (hr : ℚ) (maxhr : ℚ) : ℚ :=
  if maxhr = 0 then 0 else hr / maxhr * 100

/-! ## Per-lap derivations (activity.py lines 343-356) -/

/-- Lap pace (lines 346-349): `time/(60*dist)` guarded by a
ZeroDivisionError handler returning 0.0; the divisor is zero iff the
distance is zero. -/
def lap_pace (time dist : ℚ) : ℚ :=
  if dist = 0 then 0 else time / (60 * dist)

/-- Lap average speed (lines 350-353): `dist/(time/3600)` guarded by a bare
except returning 0.0; the only failure is division by zero, i.e. time 0. -/
def lap_avg_speed (time dist : ℚ) : ℚ :=
  if time = 0 then 0 else dist / (time / 3600)

/-! ## Pause time (activity.py lines 220-226) -/

/-- Non-active time identified while loading the GPX file: the difference
between the trackpoint-derived and lap-derived durations, when it exceeds
the 4 second `acceptable_lapse`; otherwise `time_pause` keeps its initial
value 0. -/
def timePauseOf (total_time_trkpts total_time : ℚ) : ℚ :=
  let time_diff := total_time_trkpts - total_time
  if time_diff > 4 then time_diff else 0

/-! ## Data model -/

/-- The closed set of series-name strings used as dict keys by
`_init_graph_data` and `_generate_per_lap_graphs`. -/
inductive SeriesName where
  | elevation
  | cor_elevation
  | speed
  | pace
  | hr
  | hr_p
  | cadence
  | hr_z
  | pace_lap
  | speed_lap
deriving DecidableEq, Repr

/-- Modelled from the spec: the GraphData container
(pytrainer.lib.graphdata, absent from the sources) holds an ordered list
of (x, y) pairs plus display metadata; its length is its number of points,
`addPoints`/`addBars` append one pair. Title, axis labels, per-point
labels and colors are presentational metadata with no behavioural claim
attached and are not modelled. -/
structure GraphData where
  graphType : String := "line"
  show_on_y1 : Bool := false
  points : List (ℚ × ℚ) := []
deriving DecidableEq, Repr

/-- A trackpoint as produced by the GPX parser (`self.tracklist` entries):
the fields read by `_init_graph_data`. -/
structure Track where
  elapsed_distance : ℚ
  time_elapsed : ℚ
  ele : ℚ
  correctedElevation : ℚ
  hr : ℚ
  cadence : ℚ
  velocity : ℚ
deriving DecidableEq, Repr

/-- A heart-rate zone from the profile configuration: the 4-tuple read by
`_init_graph_data` (lower bound, upper bound, color, label). -/
structure Zone where
  low : ℚ
  high : ℚ
  color : String
  label : String
deriving DecidableEq, Repr

/-- A GPX lap tuple as consumed by `_get_laps_from_gpx` (indices 0-6:
elapsed time, end lat, end lon, calories, distance, start lat, start
lon). -/
structure GpxLap where
  elapsed_time : String
  end_lat : ℚ
  end_lon : ℚ
  calories : ℚ
  distance : ℚ
  start_lat : ℚ
  start_lon : ℚ
deriving DecidableEq, Repr

/-- A lap record (database `laps` row or GPX-derived): the fields read by
`_generate_per_lap_graphs` plus the ones `_get_laps_from_gpx` populates.
`elapsed_time` is stored as text in SQL and parsed with `float()`. -/
structure Lap where
  record : ℤ
  lap_number : ℕ
  elapsed_time : String
  distance : ℚ
  start_lat : ℚ := 0
  start_lon : ℚ := 0
  end_lat : ℚ := 0
  end_lon : ℚ := 0
  calories : ℚ := 0
deriving DecidableEq, Repr

/-- The parsed GPX file (`self.gpx`): the attributes `_init_from_gpx_file`
and `_get_laps_from_gpx` read. -/
structure GpxData where
  trkpoints : List Track
  total_dist : ℚ
  total_time : ℚ
  total_time_trkpts : ℚ
  laps : List GpxLap
deriving DecidableEq, Repr

/-- One row of the `records left outer join sports` query in
`_init_from_db`. Database columns are modelled as already-typed optional
values (`none` is SQL NULL); the safe-cast helpers `_float`/`_int` turn
NULL into 0. -/
structure DbRow where
  sports_name : Option String
  id_sports : Option ℤ
  date : String
  distance : Option ℚ
  time : Option ℤ
  beats : Option ℤ
  comments : Option String
  average : Option ℚ
  calories : Option ℤ
  id_record : ℤ
  title : Option String
  upositive : Option ℚ
  unegative : Option ℚ
  maxspeed : Option ℚ
  maxpace : Option ℚ
  pace : Option ℚ
  maxbeats : Option ℤ
  date_time_utc : String
  date_time_local : Option String
  max_pace : Option ℚ
deriving DecidableEq, Repr

/-- Everything `Activity.__init__` reads from its collaborators: the main
application reference, the profile (measurement system, max heart rate,
zones), the optional parsed GPX file (`none` models a missing GPX file),
and the database answers. -/
structure Env where
  hasMain : Bool
  us_system : Bool
  gpx : Option GpxData
  dbRows : List DbRow
  lapRows : List Lap
  maxhr : ℚ
  zones : List Zone
deriving DecidableEq, Repr

/-- Errors that abort construction. `InconsistentData` is the spec's name
for the exception raised when the record query does not return exactly one
row (activity.py line 295); `LapTimeParse` is the ValueError propagating
from `float(lap.elapsed_time)` (line 344); `InvalidArgument` is the
spec's taxonomy name for the missing-identifier case, included so claims
about it can be stated (the code never raises it). -/
inductive ActivityError where
  | InvalidArgument
  | InconsistentData
  | LapTimeParse (text : String)
deriving DecidableEq, Repr

/-- A series dictionary (`self.distance_data` / `self.time_data`): an
association list in insertion order (all keys inserted are distinct). -/
abbrev SeriesMap := List (SeriesName × GraphData)

/-! ## Per-point series generation (activity.py lines 398-534) -/

/-- Removal loop at lines 510-518: delete every series whose GraphData
holds zero points. -/
def removeEmpty (m : SeriesMap) : SeriesMap :=
  m.filter (fun kv => kv.2.points.length != 0)

/-- The `'hr' in self.distance_data` membership test (line 521). -/
def containsHr (m : SeriesMap) : Bool :=
  m.any (fun kv => decide (kv.1 = SeriesName.hr))

/-- A default (line) series with the given points. -/
def plotSeries (pts : List (ℚ × ℚ)) : GraphData := { points := pts }

/-- A line series shown on the y1 axis by default (`show_on_y1`). -/
def plotSeriesY1 (pts : List (ℚ × ℚ)) : GraphData := { show_on_y1 := true, points := pts }

/-- A bar series (`graphType = "bar"`). -/
def barSeries (pts : List (ℚ × ℚ)) : GraphData := { graphType := "bar", points := pts }

/-- A vertical-span series (`graphType = "vspan"`). -/
def vspanSeries (pts : List (ℚ × ℚ)) : GraphData := { graphType := "vspan", points := pts }

/-- A horizontal-span series (`graphType = "hspan"`). -/
def hspanSeries (pts : List (ℚ × ℚ)) : GraphData := { graphType := "hspan", points := pts }

/-- The x coordinate of the distance-indexed per-point series: the
cumulative distance, unit-converted in the imperial branch. -/
def distX (us_system : Bool) (t : Track) : ℚ :=
  if us_system then km2miles t.elapsed_distance else t.elapsed_distance

/-- The distance-indexed per-point series built by the tracklist loop of
`_init_graph_data` (lines 470-509), in creation order. The source loop
appends one point per trackpoint to each series; the series do not
interact, so each series is built here as one map over the tracklist. -/
def perPointDistanceData (us_system : Bool) (pace_limit : Option ℚ) (maxhr : ℚ)
    (tl : List Track) : SeriesMap := [
  (.elevation, plotSeriesY1 (tl.map (fun t =>
    (distX us_system t, if us_system then m2feet t.ele else t.ele)))),
  (.cor_elevation, plotSeries (tl.map (fun t =>
    (distX us_system t, if us_system then m2feet t.correctedElevation else t.correctedElevation)))),
  (.speed, plotSeries (tl.map (fun t =>
    (distX us_system t, if us_system then km2miles t.velocity else t.velocity)))),
  (.pace, plotSeries (tl.map (fun t =>
    (distX us_system t, if us_system then pacekm2miles (pointPace (some t.velocity) pace_limit)
              else pointPace (some t.velocity) pace_limit)))),
  (.hr, plotSeries (tl.map (fun t => (distX us_system t, t.hr)))),
  (.hr_p, plotSeries (tl.map (fun t => (distX us_system t, hrPercent t.hr maxhr)))),
  (.cadence, plotSeries (tl.map (fun t => (distX us_system t, t.cadence))))]

/-- The time-indexed per-point series built by the same loop: the x value
is always the point's `time_elapsed`, never unit-converted; the
heart-rate, heart-rate-percent and cadence series are appended to outside
the unit branch. -/
def perPointTimeData (us_system : Bool) (pace_limit : Option ℚ) (maxhr : ℚ)
    (tl : List Track) : SeriesMap := [
  (.elevation, plotSeriesY1 (tl.map (fun t =>
    (t.time_elapsed, if us_system then m2feet t.ele else t.ele)))),
  (.cor_elevation, plotSeries (tl.map (fun t =>
    (t.time_elapsed, if us_system then m2feet t.correctedElevation else t.correctedElevation)))),
  (.speed, plotSeries (tl.map (fun t =>
    (t.time_elapsed, if us_system then km2miles t.velocity else t.velocity)))),
  (.pace, plotSeries (tl.map (fun t =>
    (t.time_elapsed, if us_system then pacekm2miles (pointPace (some t.velocity) pace_limit)
                     else pointPace (some t.velocity) pace_limit)))),
  (.hr, plotSeries (tl.map (fun t => (t.time_elapsed, t.hr)))),
  (.hr_p, plotSeries (tl.map (fun t => (t.time_elapsed, hrPercent t.hr maxhr)))),
  (.cadence, plotSeries (tl.map (fun t => (t.time_elapsed, t.cadence))))]

/-- `_init_graph_data`: build the per-point distance-indexed and
time-indexed series, drop empty ones, then add the heart-rate zone
series to both dictionaries when an `hr` series survived in the
distance dictionary. -/
def initGraphData (us_system : Bool) (pace_limit : Option ℚ) (maxhr : ℚ)
    (zones : List Zone) (tracklist : Option (List Track)) : SeriesMap × SeriesMap :=
  match tracklist with
  | none => ([], [])
  | some tl =>
    let distance_data := removeEmpty (perPointDistanceData us_system pace_limit maxhr tl)
    let time_data := removeEmpty (perPointTimeData us_system pace_limit maxhr tl)
    if containsHr distance_data then
      (distance_data ++ [(.hr_z, hspanSeries (zones.map (fun z => (z.low, z.high))))],
       time_data ++ [(.hr_z, plotSeries (zones.map (fun z => (z.low, z.high))))])
    else (distance_data, time_data)

/-! ## Per-lap series generation (activity.py lines 307-371) -/

/-- The derived quantities of one iteration of the lap loop. -/
structure LapCalc where
  time : ℚ
  dist : ℚ
  pace : ℚ
  avg_speed : ℚ
deriving DecidableEq, Repr

/-- One iteration of the lap loop (lines 343-357): parse the elapsed time
(ValueError propagates), derive distance in km, pace and average speed
with their division-by-zero recovery, then apply the pace-limit clamp. -/
def lapCalc (pace_limit : Option ℚ) (lap : Lap) : Except ActivityError LapCalc :=
  match pyFloatParse lap.elapsed_time with
  | none => .error (.LapTimeParse lap.elapsed_time)
  | some time =>
    let dist := lap.distance / 1000
    let pace := lap_pace time dist
    let avg_speed := lap_avg_speed time dist
    let pace := match pace_limit with
      | some lim => if pace > lim then 0 else pace
      | none => pace
    .ok { time := time, dist := dist, pace := pace, avg_speed := avg_speed }

/-- Run the lap loop over all laps, stopping at the first parse failure
(the ValueError aborts construction, so later appends are unobservable). -/
def processLaps (pace_limit : Option ℚ) : List Lap → Except ActivityError (List LapCalc)
  | [] => .ok []
  | lap :: rest =>
    match lapCalc pace_limit lap with
    | .error e => .error e
    | .ok c =>
      match processLaps pace_limit rest with
      | .error e => .error e
      | .ok cs => .ok (c :: cs)

/-- `_generate_per_lap_graphs`: when a lap list exists (even an empty
one), create the `lap_distance`/`lap_time` marker series and the
`pace_lap`/`speed_lap` bar series in both dictionaries, then append one
bar per lap to each, with the same unit branching as the per-point
stage. `none` models `self.laps is None` (early return, no series
created). -/
def generatePerLapGraphs (us_system : Bool) (pace_limit : Option ℚ)
    (laps : Option (List Lap)) (distance_data time_data : SeriesMap) :
    Except ActivityError (SeriesMap × SeriesMap × Option GraphData × Option GraphData) :=
  match laps with
  | none => .ok (distance_data, time_data, none, none)
  | some ls =>
    match processLaps pace_limit ls with
    | .error e => .error e
    | .ok cs =>
      let lap_distance : GraphData := vspanSeries (cs.map (fun c =>
        (if us_system then km2miles c.dist else c.dist, 10)))
      let lap_time : GraphData := vspanSeries (cs.map (fun c => (c.time, 10)))
      let distance_data := distance_data ++ [
        (.pace_lap, barSeries (cs.map (fun c =>
          (if us_system then km2miles c.dist else c.dist,
           if us_system then pacekm2miles c.pace else c.pace)))),
        (.speed_lap, barSeries (cs.map (fun c =>
          (if us_system then km2miles c.dist else c.dist,
           if us_system then km2miles c.avg_speed else c.avg_speed))))]
      let time_data := time_data ++ [
        (.pace_lap, barSeries (cs.map (fun c =>
          (c.time, if us_system then pacekm2miles c.pace else c.pace)))),
        (.speed_lap, barSeries (cs.map (fun c =>
          (c.time, if us_system then km2miles c.avg_speed else c.avg_speed))))]
      .ok (distance_data, time_data, some lap_distance, some lap_time)

/-! ## Database load (activity.py lines 228-305) and lap fallback -/

/-- `_get_laps_from_gpx`: convert the GPX lap tuples into lap records.
The source numbers each lap with `gpxLaps.index(lap)` (first-occurrence
index, identical to the position except for duplicate tuples; the lap
number is never read downstream). The `insertLaps` persistence side
effect is external I/O and has no effect on the constructed state. -/
def lapsFromGpx (id : ℤ) (gpxLaps : List GpxLap) : List Lap :=
  gpxLaps.enum.map (fun p =>
    { record := id, lap_number := p.1, elapsed_time := p.2.elapsed_time,
      distance := p.2.distance, start_lat := p.2.start_lat, start_lon := p.2.start_lon,
      end_lat := p.2.end_lat, end_lon := p.2.end_lon, calories := p.2.calories })

/-- Lap-row resolution (lines 296-304): use the `laps` table rows when
any exist; when none were found and a GPX file exists, fall back to the
GPX-derived laps; otherwise keep the empty list. -/
def resolveLaps (id : ℤ) (env : Env) : List Lap :=
  match env.lapRows with
  | [] =>
    match env.gpx with
    | some g => lapsFromGpx id g.laps
    | none => []
  | ls => ls

/-- The scalar fields `_init_from_db` populates, plus the resolved lap
list and the `has_data` flag. -/
structure DbFields where
  sport_name : String
  sport_id : Option ℤ
  pace_limit : Option ℚ
  title : String
  date : String
  time : ℤ
  beats : ℤ
  comments : String
  calories : ℤ
  id_record : ℤ
  maxbeats : ℤ
  date_time_local : Option String
  date_time_utc : String
  distance : Option ℚ
  average : ℚ
  upositive : ℚ
  unegative : ℚ
  maxspeed : ℚ
  maxpace : ℚ
  pace : ℚ
  has_data : Bool
  laps : List Lap
deriving DecidableEq, Repr

/-- `_init_from_db`: require exactly one joined row (otherwise the raised
exception — the spec's `InconsistentData` — aborts construction), then
populate the scalar fields with their null-handling, normalise a
`pace_limit` of 0 to "no limit", fall back to the GPX total distance when
the stored distance is falsy, and resolve the lap rows. Timestamp parsing
(`dateutil`, external) is kept as the stored strings. -/
def initFromDb (id : ℤ) (env : Env) (gpx_distance : Option ℚ) :
    Except ActivityError DbFields :=
  match env.dbRows with
  | [row] =>
    let pace_limit := match row.max_pace with
      | some q => if q = 0 then none else some q
      | none => none
    let distance := _float row.distance
    .ok {
      sport_name := row.sports_name.getD ""
      sport_id := row.id_sports
      pace_limit := pace_limit
      title := row.title.getD ""
      date := row.date
      time := _int row.time
      beats := _int row.beats
      comments := row.comments.getD ""
      calories := _int row.calories
      id_record := row.id_record
      maxbeats := _int row.maxbeats
      date_time_local := row.date_time_local
      date_time_utc := row.date_time_utc
      distance := if distance = 0 then gpx_distance else some distance
      average := _float row.average
      upositive := _float row.upositive
      unegative := _float row.unegative
      maxspeed := _float row.maxspeed
      maxpace := _float row.maxpace
      pace := _float row.pace
      has_data := true
      laps := resolveLaps id env }
  | _ => .error .InconsistentData

/-! ## The constructed activity (Activity.__init__) -/

/-- The populated activity instance: the fields of the Python object that
later behaviour reads (graph-axis display fields such as `x_limits` are
presentational and not modelled). -/
structure ActivityState where
  id : ℤ
  us_system : Bool
  has_data : Bool
  time_pause : ℚ
  pace_limit : Option ℚ
  gpx_distance : Option ℚ
  tracklist : Option (List Track)
  sport_name : String
  sport_id : Option ℤ
  title : String
  date : String
  time : ℤ
  beats : ℤ
  comments : String
  calories : ℤ
  id_record : ℤ
  maxbeats : ℤ
  date_time_local : Option String
  date_time_utc : String
  distance : Option ℚ
  average : ℚ
  upositive : ℚ
  unegative : ℚ
  maxspeed : ℚ
  maxpace : ℚ
  pace : ℚ
  laps : Option (List Lap)
  distance_data : SeriesMap
  time_data : SeriesMap
  lap_distance : Option GraphData
  lap_time : Option GraphData
deriving DecidableEq, Repr

/-- Outcome of `Activity.__init__`: a silent early `return` (missing id or
missing main reference — the instance is left unpopulated, no exception
is raised), a propagated exception, or a populated instance. -/
inductive InitResult where
  | earlyReturn
  | error (e : ActivityError)
  | ok (st : ActivityState)
deriving DecidableEq, Repr

/-- `Activity.__init__` over the collaborator environment: early-return
guards, optional GPX processing (pause-time detection), database load,
per-point series generation, then per-lap series generation. -/
def activityInit (id : Option ℤ) (env : Env) : InitResult :=
  match id with
  | none => .earlyReturn
  | some i =>
    if !env.hasMain then .earlyReturn
    else
      let tracklist : Option (List Track) := env.gpx.map (fun g => g.trkpoints)
      let gpx_distance : Option ℚ := env.gpx.map (fun g => g.total_dist)
      let time_pause : ℚ := match env.gpx with
        | some g => timePauseOf g.total_time_trkpts g.total_time
        | none => 0
      match initFromDb i env gpx_distance with
      | .error e => .error e
      | .ok f =>
        let maps := initGraphData env.us_system f.pace_limit env.maxhr env.zones tracklist
        match generatePerLapGraphs env.us_system f.pace_limit (some f.laps) maps.1 maps.2 with
        | .error e => .error e
        | .ok r =>
          .ok {
            id := i
            us_system := env.us_system
            has_data := f.has_data
            time_pause := time_pause
            pace_limit := f.pace_limit
            gpx_distance := gpx_distance
            tracklist := tracklist
            sport_name := f.sport_name
            sport_id := f.sport_id
            title := f.title
            date := f.date
            time := f.time
            beats := f.beats
            comments := f.comments
            calories := f.calories
            id_record := f.id_record
            maxbeats := f.maxbeats
            date_time_local := f.date_time_local
            date_time_utc := f.date_time_utc
            distance := f.distance
            average := f.average
            upositive := f.upositive
            unegative := f.unegative
            maxspeed := f.maxspeed
            maxpace := f.maxpace
            pace := f.pace
            laps := some f.laps
            distance_data := r.1
            time_data := r.2.1
            lap_distance := r.2.2.1
            lap_time := r.2.2.2 }

/-! ## Field access (activity.py lines 195-206, 550-620) -/

/-- A Python value as returned by `get_value`: a number, a string, or
None. -/
inductive PyVal where
  | num (q : ℚ)
  | str (s : String)
  | none
deriving DecidableEq, Repr

/-- Python truthiness test `not value` on a `get_value` result: 0, the
empty string and None are falsy. -/
def isFalsy : PyVal → Bool
  | .num q => q == 0
  | .str s => s == ""
  | .none => true

/-- Modelled from the spec: Python `str()` of a numeric value, used when
`get_value_f` is called without a format string. Only its use as an
opaque rendering matters to the claims; an integral value renders like a
CPython float (`"10.0"`), others fall back to the exact fraction. -/
def pyStrNum (q : ℚ) : String :=
  if q.den = 1 then toString q.num ++ ".0" else toString q.num ++ "/" ++ toString q.den

/-- Python `str()` of a `get_value` result. -/
def pyStr : PyVal → String
  | .num q => pyStrNum q
  | .str s => s
  | .none => "None"

/-- `_set_units` (lines 195-206): the distance unit label for the current
measurement system (the `_()` localization wrapper is dropped). -/
def distanceUnit (us_system : Bool) : String := if us_system then "miles" else "km"

/-- `_set_units`: the speed unit label. -/
def speedUnit (us_system : Bool) : String := if us_system then "miles/h" else "km/h"

/-- `_set_units`: the pace unit label. -/
def paceUnit (us_system : Bool) : String := if us_system then "min/mile" else "min/km"

/-- `_set_units`: the height unit label. -/
def heightUnit (us_system : Bool) : String := if us_system then "feet" else "m"

/-- The `self.units` dict built by `_set_units`: maps the seven unit-aware
parameter names to their unit label; `none` models `param not in
self.units`. -/
def unitsLookup (us_system : Bool) (param : String) : Option String :=
  if param = "distance" then some (distanceUnit us_system)
  else if param = "average" then some (speedUnit us_system)
  else if param = "upositive" then some (heightUnit us_system)
  else if param = "unegative" then some (heightUnit us_system)
  else if param = "maxspeed" then some (speedUnit us_system)
  else if param = "pace" then some (paceUnit us_system)
  else if param = "maxpace" then some (paceUnit us_system)
  else none

/-- Modelled from the spec: `Date().second2time` (pytrainer.lib.date,
absent from the sources) splits a duration in seconds into an
(hours, minutes, seconds) tuple. -/
def second2time (t : ℤ) : ℤ × ℤ × ℤ := (t / 3600, t % 3600 / 60, t % 60)

/-- Zero-padded two-digit rendering (`"%02d"`) of a non-negative count. -/
def pad2 (n : ℤ) : String := if n < 10 then "0" ++ toString n else toString n

/-- `get_value` (lines 569-620): unit-converted read access to the scalar
fields. Pace-like fields go through `pace_from_float`; `time` is
formatted as a clock string; an unknown parameter logs a warning and
returns None. A stored distance of Python None (possible when the
database distance is falsy and no GPX file exists) is returned as None:
the metric branch returns it unchanged, and the imperial branch feeds it
to the spec-modelled numeric conversion, which the spec only defines on
numbers (spec §8 fixes the resulting formatted value to the empty
string). -/
def get_value (a : ActivityState) (param : String) : PyVal :=
  if param = "distance" then
    match a.distance with
    | some d => .num (if a.us_system then km2miles d else d)
    | none => .none
  else if param = "average" then .num (if a.us_system then km2miles a.average else a.average)
  else if param = "upositive" then .num (if a.us_system then m2feet a.upositive else a.upositive)
  else if param = "unegative" then .num (if a.us_system then m2feet a.unegative else a.unegative)
  else if param = "maxspeed" then .num (if a.us_system then km2miles a.maxspeed else a.maxspeed)
  else if param = "maxpace" then
    .str (pace_from_float (some (if a.us_system then pacekm2miles a.maxpace else a.maxpace)))
  else if param = "pace" then
    .str (pace_from_float (some (if a.us_system then pacekm2miles a.pace else a.pace)))
  else if param = "calories" then .num (a.calories : ℚ)
  else if param = "time" then
    if a.time = 0 then .str ""
    else
      let t := second2time a.time
      if t.1 = 0 then .str (pad2 t.2.1 ++ ":" ++ pad2 t.2.2)
      else .str (toString t.1 ++ ":" ++ pad2 t.2.1 ++ ":" ++ pad2 t.2.2)
  else .none

/-- `get_value_f` (lines 550-567): format a `get_value` result as a
string; a falsy value yields the empty string; otherwise apply the
optional format (modelled as an opaque rendering function, `none` being
plain `str`), then append the unit label when requested and the
parameter is unit-aware. -/
def get_value_f (a : ActivityState) (param : String)
    (format : Option (PyVal → String)) (with_units : Bool) : String :=
  let value := get_value a param
  if isFalsy value then ""
  else
    let result := match format with
      | some f => f value
      | none => pyStr value
    if with_units then
      match unitsLookup a.us_system param with
      | some u => result ++ u
      | none => result
    else result

/-! ## Concrete sample data for witnesses and counterexamples -/

/-- A sparse but well-formed database row (every nullable column NULL). -/
def sampleRow : DbRow where
  sports_name := none
  id_sports := none
  date := "2010-01-01"
  distance := none
  time := none
  beats := none
  comments := none
  average := none
  calories := none
  id_record := 1
  title := none
  upositive := none
  unegative := none
  maxspeed := none
  maxpace := none
  pace := none
  maxbeats := none
  date_time_utc := "2010-01-01T10:00:00Z"
  date_time_local := none
  max_pace := none

/-- An environment with one database row, no GPX file and no lap rows. -/
def sampleEnv : Env where
  hasMain := true
  us_system := false
  gpx := none
  dbRows := [sampleRow]
  lapRows := []
  maxhr := 0
  zones := []

/-- A populated metric-system activity state with distance 10 km and zero
average/max pace. -/
def baseState : ActivityState where
  id := 1
  us_system := false
  has_data := true
  time_pause := 0
  pace_limit := none
  gpx_distance := none
  tracklist := none
  sport_name := ""
  sport_id := none
  title := ""
  date := "2010-01-01"
  time := 0
  beats := 0
  comments := ""
  calories := 0
  id_record := 1
  maxbeats := 0
  date_time_local := none
  date_time_utc := "2010-01-01T10:00:00Z"
  distance := some 10
  average := 0
  upositive := 0
  unegative := 0
  maxspeed := 0
  maxpace := 0
  pace := 0
  laps := some []
  distance_data := []
  time_data := []
  lap_distance := none
  lap_time := none

/-! ## Claim theorems -/

/-- Claim C2: for every trackpoint, the derived pace is 60 divided by the
velocity; a zero or invalid (non-numeric) velocity yields pace 0 with no
division-by-zero error; and when a pace limit is set and the computed
pace exceeds it, the emitted pace is 0 rather than the computed value. -/
theorem C2_point_pace_spec (vel : ℚ) (lim : Option ℚ) (hv : vel ≠ 0) :
    pointPace (some vel) lim =
      (match lim with
       | some l => if 60 / vel > l then 0 else 60 / vel
       | none => 60 / vel) ∧
    pointPace (some 0) lim = 0 ∧ pointPace none lim = 0 := by
  refine ⟨?_, ?_, rfl⟩
  · simp [pointPace, hv]
  · simp [pointPace]

/-- Witness for C2 at the spec's own example: velocity 25/3 km/h gives a
computed pace of 7.2 min/km, which exceeds the limit 5 and is emitted as
0; a zero velocity also gives 0. -/
theorem C2_point_pace_spec_witness :
    pointPace (some ((25 : ℚ) / 3)) (some 5) = 0 ∧
    pointPace (some 0) (some 5) = 0 := by
  have h := C2_point_pace_spec ((25 : ℚ) / 3) (some 5) (by norm_num)
  refine ⟨?_, h.2.1⟩
  rw [h.1]
  norm_num

/-- Claim C5 (amended reading as stated): the recorded pause time is the
trackpoint-derived total time minus the lap-derived total time whenever
that difference exceeds the 4-second tolerance, and 0 otherwise; an
excess of 10 seconds yields 10, an excess of 2 seconds yields 0. The
recorded value is `time_pause` of any successfully constructed activity
whose environment has a GPX file. -/
theorem C5_pause_time (tp tl : ℚ) :
    (tp - tl > 4 → timePauseOf tp tl = tp - tl) ∧
    (tp - tl ≤ 4 → timePauseOf tp tl = 0) ∧
    timePauseOf (tl + 10) tl = 10 ∧ timePauseOf (tl + 2) tl = 0 ∧
    (∀ (env : Env) (i : ℤ) (st : ActivityState) (g : GpxData),
      env.gpx = some g → activityInit (some i) env = .ok st →
      st.time_pause = timePauseOf g.total_time_trkpts g.total_time) := by
  refine ⟨?_, ?_, ?_, ?_, ?_⟩
  · intro h; simp [timePauseOf, h]
  · intro h; simp [timePauseOf, not_lt.mpr h]
  · have h10 : tl + 10 - tl = (10 : ℚ) := by ring
    simp [timePauseOf, h10]
    norm_num
  · have h2 : tl + 2 - tl = (2 : ℚ) := by ring
    simp [timePauseOf, h2]
    norm_num
  · intro env i st g hg hok
    unfold activityInit at hok
    cases hmain : env.hasMain with
    | false => simp [hmain] at hok
    | true =>
      simp only [hmain, Bool.not_true, Bool.false_eq_true, if_false] at hok
      rcases hdb : initFromDb i env (env.gpx.map (fun g => g.total_dist)) with e | f
      · simp [hdb] at hok
      · simp only [hdb] at hok
        rcases hlap : generatePerLapGraphs env.us_system f.pace_limit (some f.laps)
            (initGraphData env.us_system f.pace_limit env.maxhr env.zones
              (env.gpx.map (fun g => g.trkpoints))).1
            (initGraphData env.us_system f.pace_limit env.maxhr env.zones
              (env.gpx.map (fun g => g.trkpoints))).2 with e | r
        · simp [hlap] at hok
        · simp only [hlap] at hok
          cases hok
          simp [hg]

/-- Witness for C5: a 10-second excess yields pause time 10 and a
2-second excess yields pause time 0. -/
theorem C5_pause_time_witness :
    timePauseOf 14 4 = 10 ∧ timePauseOf 6 4 = 0 := by
  constructor
  · have h := (C5_pause_time 14 4).1 (by norm_num)
    rw [h]; norm_num
  · exact (C5_pause_time 6 4).2.1 (by norm_num)

/-- Claim C6: the derived lap pace is time/(60·distance) and the derived
average speed is distance/(time/3600), each recovering to 0.0 on
division by zero; in particular a lap of distance 0 derives pace 0 and
average speed 0. -/
theorem C6_lap_derivations (time dist : ℚ) :
    (dist ≠ 0 → lap_pace time dist = time / (60 * dist)) ∧
    (time ≠ 0 → lap_avg_speed time dist = dist / (time / 3600)) ∧
    lap_pace time 0 = 0 ∧ lap_avg_speed time 0 = 0 := by
  refine ⟨fun h => by simp [lap_pace, h], fun h => by simp [lap_avg_speed, h],
    by simp [lap_pace], ?_⟩
  by_cases h : time = 0 <;> simp [lap_avg_speed, h]

/-- Witness for C6: a 600-second, 2-km lap derives pace 5 min/km and
average speed 12 km/h. -/
theorem C6_lap_derivations_witness :
    lap_pace 600 2 = 5 ∧ lap_avg_speed 600 2 = 12 := by
  constructor
  · rw [(C6_lap_derivations 600 2).1 (by norm_num)]; norm_num
  · rw [(C6_lap_derivations 600 2).2.1 (by norm_num)]; norm_num

/-- Claim C10: an activity whose stored average pace (resp. max pace) is
exactly 0 answers `get_value "pace"` (resp. `"maxpace"`) with the empty
string — not a formatted "0:00" and not the number 0 — because
`pace_from_float` maps every falsy value to the empty string; this holds
in both measurement systems (the state is arbitrary, including its
`us_system` flag). -/
theorem C10_zero_pace_blank (a : ActivityState) :
    (a.pace = 0 → get_value a "pace" = .str "") ∧
    (a.maxpace = 0 → get_value a "maxpace" = .str "") := by
  constructor <;> intro h <;>
    simp [get_value, h, pace_from_float, pacekm2miles, zero_div]

/-- Witness for C10 at a concrete state with zero stored paces. -/
theorem C10_zero_pace_blank_witness :
    get_value baseState "pace" = .str "" ∧
    get_value baseState "maxpace" = .str "" :=
  ⟨(C10_zero_pace_blank baseState).1 rfl, (C10_zero_pace_blank baseState).2 rfl⟩

/-- Claim C4 counterexample: constructing with an absent identifier does
not fail with a fatal `InvalidArgument` error — `__init__` silently
returns, leaving an unpopulated instance. -/
theorem C4_counterexample :
    activityInit none sampleEnv = .earlyReturn ∧
    activityInit none sampleEnv ≠ .error .InvalidArgument :=
  ⟨rfl, by simp [activityInit]⟩

/-- Claim C4 (amended): constructing with an absent (None) identifier
aborts initialization immediately with a silent early return — no data
is loaded and no exception is raised. -/
theorem C4_missing_id_early_return (env : Env) :
    activityInit none env = .earlyReturn := rfl

/-- Stated from the spec's words for claim C7: a string of the literal
shape "mm:ss or mm.ss" — two nonempty digit groups joined by a single
':' or '.'. Used only to compare the claim's wording against the code. -/
def isPaceTextFormat (s : String) : Bool :=
  match s.data.splitOn ':' with
  | [mm, ss] => !mm.isEmpty && mm.all Char.isDigit && !ss.isEmpty && ss.all Char.isDigit
  | _ =>
    match s.data.splitOn '.' with
    | [mm, ss] => !mm.isEmpty && mm.all Char.isDigit && !ss.isEmpty && ss.all Char.isDigit
    | _ => false

/-- Claim C7 counterexample: "7" is not of mm:ss or mm.ss shape, yet
`pace_to_float` does not return null on it — `float("7")` succeeds, so
the result is 7.0. -/
theorem C7_counterexample :
    isPaceTextFormat "7" = false ∧ pace_to_float "7" = some 7 := by
  constructor
  · decide
  · have hd : pyFloatDecode (replaceChar ':' '.' "7") = some (false, 7, 0, 0) := by decide
    simp [pace_to_float, pyFloatParse, hd]

/-- Claim C7 (amended): the encoding round-trips on the claimed examples
(`pace_from_float (pace_to_float "5:30") = "5:30"`,
`pace_to_float "5.30" = 5.30`), and `pace_to_float` returns null exactly
on inputs whose separator-substituted form fails float conversion (such
as "abc") — numeric inputs that are not of mm:ss/mm.ss shape, such as
"7", are accepted rather than rejected. -/
theorem C7_pace_encoding :
    pace_from_float (pace_to_float "5:30") = "5:30" ∧
    pace_to_float "5.30" = some (53 / 10) ∧
    pace_to_float "abc" = none ∧
    pace_to_float "7" = some 7 ∧
    (∀ s : String, pace_to_float s = none ↔
      pyFloatDecode (replaceChar ':' '.' s) = none) := by
  have h530 : pace_to_float "5:30" = some ((53 : ℚ) / 10) := by
    have hd : pyFloatDecode (replaceChar ':' '.' "5:30") = some (false, 5, 30, 2) := by decide
    simp [pace_to_float, pyFloatParse, hd]
    norm_num
  refine ⟨?_, ?_, by decide, ?_, ?_⟩
  · rw [h530]
    have hq : ((53 : ℚ) / 10) ≠ 0 := by norm_num
    have hf : (⌊(53 : ℚ) / 10 * 100 + 1 / 2⌋ : ℤ) = 530 := by
      rw [Int.floor_eq_iff]
      norm_num
    simp only [pace_from_float, formatFixed2, hf, if_neg hq]
    decide
  · have hd : pyFloatDecode (replaceChar ':' '.' "5.30") = some (false, 5, 30, 2) := by decide
    simp [pace_to_float, pyFloatParse, hd]
    norm_num
  · have hd : pyFloatDecode (replaceChar ':' '.' "7") = some (false, 7, 0, 0) := by decide
    simp [pace_to_float, pyFloatParse, hd]
  · intro s
    simp [pace_to_float, pyFloatParse, Option.map_eq_none]

/-- Claim C8: `get_value_f` returns the empty string whenever the
underlying `get_value` result is falsy (zero, absent/None, or the empty
string), for every field; and for a nonzero stored distance it returns
the unit-converted numeric value with the correct unit suffix appended
when units are requested. -/
theorem C8_get_value_f_spec (a : ActivityState) (param : String)
    (format : Option (PyVal → String)) (with_units : Bool) (d : ℚ) :
    (isFalsy (get_value a param) = true → get_value_f a param format with_units = "") ∧
    (a.distance = some d → d ≠ 0 →
      get_value_f a "distance" none true =
        pyStrNum (if a.us_system then km2miles d else d) ++ distanceUnit a.us_system) := by
  constructor
  · intro h
    simp [get_value_f, h]
  · intro hd hne
    have hv : (if a.us_system then km2miles d else d) ≠ 0 := by
      rcases Bool.eq_false_or_eq_true a.us_system with h | h
      · simpa [h, km2miles] using
          mul_ne_zero hne (show (621371 : ℚ) / 1000000 ≠ 0 by norm_num)
      · simpa [h] using hne
    simp [get_value_f, get_value, hd, isFalsy, hv, pyStr, unitsLookup]

/-- Witness for C8: on `baseState` the falsy field `pace` (stored 0)
formats to the empty string, and the nonzero 10 km distance formats to
its rendered value followed by the metric unit label. -/
theorem C8_get_value_f_spec_witness :
    get_value_f baseState "pace" none true = "" ∧
    get_value_f baseState "distance" none true = pyStrNum 10 ++ distanceUnit false := by
  constructor
  · exact (C8_get_value_f_spec baseState "pace" none true 10).1 (by decide)
  · have h := (C8_get_value_f_spec baseState "distance" none true 10).2 rfl (by norm_num)
    simpa [baseState] using h

/-- A lap whose elapsed-time text does not parse as a float. -/
def badLap : Lap where
  record := 1
  lap_number := 0
  elapsed_time := "abc"
  distance := 0

/-- `sampleEnv` with one unparseable lap row. -/
def envBadLap : Env := { sampleEnv with lapRows := [badLap] }

/-- `sampleEnv` with the record row duplicated. -/
def envTwoRows : Env := { sampleEnv with dbRows := [sampleRow, sampleRow] }

/-- When every lap's elapsed time parses, the lap loop succeeds. -/
theorem processLaps_isOk (pace_limit : Option ℚ) (ls : List Lap)
    (h : ∀ lap ∈ ls, (pyFloatParse lap.elapsed_time).isSome) :
    ∃ cs, processLaps pace_limit ls = .ok cs := by
  induction ls with
  | nil => exact ⟨[], rfl⟩
  | cons lap rest ih =>
    obtain ⟨v, hv⟩ := Option.isSome_iff_exists.mp (h lap (List.mem_cons_self _ _))
    obtain ⟨cs, hcs⟩ := ih (fun l hl => h l (List.mem_cons_of_mem _ hl))
    obtain ⟨c, hc⟩ : ∃ c, lapCalc pace_limit lap = .ok c := by
      unfold lapCalc
      rw [hv]
      exact ⟨_, rfl⟩
    exact ⟨c :: cs, by simp only [processLaps, hc, hcs]⟩

/-- A record query answer with zero or at least two rows makes
`_init_from_db` raise the row-count error. -/
theorem initFromDb_not_one (i : ℤ) (env : Env) (gd : Option ℚ)
    (h : env.dbRows.length ≠ 1) :
    initFromDb i env gd = .error .InconsistentData := by
  unfold initFromDb
  rcases henv : env.dbRows with _ | ⟨r, _ | ⟨r2, rest⟩⟩
  · rfl
  · exact absurd (by rw [henv]; rfl) h
  · rfl

/-- A single-row answer makes `_init_from_db` succeed with `has_data`
set and the resolved laps attached. -/
theorem initFromDb_single (i : ℤ) (env : Env) (gd : Option ℚ) (row : DbRow)
    (h : env.dbRows = [row]) :
    ∃ f, initFromDb i env gd = .ok f ∧ f.has_data = true ∧ f.laps = resolveLaps i env :=
  ⟨_, by unfold initFromDb; rw [h], rfl, rfl⟩

/-- Claim C1 (amended): under a present identifier and main reference,
and provided every resolved lap row's elapsed time parses as a float
(an unparseable lap elapsed time is a distinct fatal error — spec §7),
a one-row query answer makes construction succeed with `has_data` true,
and a zero- or multi-row answer makes construction fail with the
`InconsistentData` error. -/
theorem C1_row_count (i : ℤ) (env : Env)
    (hmain : env.hasMain = true)
    (hparse : ∀ lap ∈ resolveLaps i env, (pyFloatParse lap.elapsed_time).isSome) :
    (env.dbRows.length = 1 →
      ∃ st, activityInit (some i) env = .ok st ∧ st.has_data = true) ∧
    (env.dbRows.length ≠ 1 →
      activityInit (some i) env = .error .InconsistentData) := by
  constructor
  · intro h1
    obtain ⟨row, hrow⟩ := List.length_eq_one.mp h1
    obtain ⟨f, hdb, hhd, hlaps⟩ :=
      initFromDb_single i env (env.gpx.map (fun g => g.total_dist)) row hrow
    obtain ⟨cs, hcs⟩ := processLaps_isOk f.pace_limit f.laps (by rw [hlaps]; exact hparse)
    have hgen : ∃ r, generatePerLapGraphs env.us_system f.pace_limit (some f.laps)
        (initGraphData env.us_system f.pace_limit env.maxhr env.zones
          (env.gpx.map (fun g => g.trkpoints))).1
        (initGraphData env.us_system f.pace_limit env.maxhr env.zones
          (env.gpx.map (fun g => g.trkpoints))).2 = .ok r := by
      simp only [generatePerLapGraphs, hcs]
      exact ⟨_, rfl⟩
    obtain ⟨r, hr⟩ := hgen
    unfold activityInit
    simp only [hmain, Bool.not_true, Bool.false_eq_true, if_false, hdb, hr]
    exact ⟨_, rfl, hhd⟩
  · intro h1
    unfold activityInit
    simp only [hmain, Bool.not_true, Bool.false_eq_true, if_false,
      initFromDb_not_one i env _ h1]

/-- Witness for C1: on the one-row environment construction succeeds
with `has_data` true, and on the two-row environment it fails with
`InconsistentData`. -/
theorem C1_row_count_witness :
    (∃ st, activityInit (some 1) sampleEnv = .ok st ∧ st.has_data = true) ∧
    activityInit (some 1) envTwoRows = .error .InconsistentData := by
  constructor
  · exact (C1_row_count 1 sampleEnv rfl (by decide)).1 rfl
  · exact (C1_row_count 1 envTwoRows rfl (by decide)).2 (by decide)

/-- Claim C1 counterexample: an identifier whose query returns exactly
one row for which construction nevertheless fails — the lap row's
elapsed time "abc" does not parse, and that ValueError aborts
construction, so a one-row answer alone does not guarantee success. -/
theorem C1_counterexample :
    envBadLap.dbRows.length = 1 ∧
    activityInit (some 1) envBadLap = .error (.LapTimeParse "abc") := by
  exact ⟨rfl, rfl⟩

/-! ## Structure lemmas about the series maps -/

/-- The per-series x sequences of a series map. -/
def seriesXs (m : SeriesMap) : List (SeriesName × List ℚ) :=
  m.map (fun kv => (kv.1, kv.2.points.map Prod.fst))

/-- The per-series point counts of a series map. -/
def seriesShape (m : SeriesMap) : List (SeriesName × ℕ) :=
  m.map (fun kv => (kv.1, kv.2.points.length))

/-- The key sequence of a series map. -/
def seriesKeys (m : SeriesMap) : List SeriesName := m.map (fun kv => kv.1)

/-- Any entry surviving the empty-series removal has at least one point. -/
theorem points_ne_nil_of_mem_removeEmpty {n : SeriesName} {gd : GraphData} {m : SeriesMap}
    (h : (n, gd) ∈ removeEmpty m) : gd.points ≠ [] := by
  intro hnil
  have h2 := (List.mem_filter.mp h).2
  rw [hnil] at h2
  simp at h2

/-- Every survivor of the removal was in the original map. -/
theorem mem_of_mem_removeEmpty {kv : SeriesName × GraphData} {m : SeriesMap}
    (h : kv ∈ removeEmpty m) : kv ∈ m :=
  (List.mem_filter.mp h).1

/-- The image of `removeEmpty` under any map that determines each
series' point count: equal images before removal give equal images after
removal, because the removal predicate only reads the point count. -/
theorem removeEmpty_map_congr {γ : Type} (F : SeriesName × GraphData → γ)
    (len : γ → ℕ) (hlen : ∀ kv, len (F kv) = kv.2.points.length) :
    ∀ {A B : SeriesMap}, A.map F = B.map F →
      (removeEmpty A).map F = (removeEmpty B).map F := by
  intro A
  induction A with
  | nil =>
    intro B h
    cases B with
    | nil => rfl
    | cons b bs => simp at h
  | cons a as ih =>
    intro B h
    cases B with
    | nil => simp at h
    | cons b bs =>
      simp only [List.map_cons, List.cons.injEq] at h
      obtain ⟨hab, hrest⟩ := h
      have hl : (a.2.points.length != 0) = (b.2.points.length != 0) := by
        rw [← hlen a, ← hlen b, hab]
      show (List.filter _ (a :: as)).map F = (List.filter _ (b :: bs)).map F
      rw [List.filter_cons, List.filter_cons, hl]
      by_cases hc : (b.2.points.length != 0) = true
      · simp only [hc, if_true, List.map_cons, hab]
        exact congrArg _ (ih hrest)
      · simp only [hc, if_false]
        exact ih hrest

/-- `removeEmpty` congruence at the level of x sequences. -/
theorem seriesXs_removeEmpty {A B : SeriesMap} (h : seriesXs A = seriesXs B) :
    seriesXs (removeEmpty A) = seriesXs (removeEmpty B) :=
  removeEmpty_map_congr _ (fun r => r.2.length) (fun kv => by simp) h

/-- `removeEmpty` congruence at the level of point counts. -/
theorem seriesShape_removeEmpty {A B : SeriesMap} (h : seriesShape A = seriesShape B) :
    seriesShape (removeEmpty A) = seriesShape (removeEmpty B) :=
  removeEmpty_map_congr _ (fun r => r.2) (fun _ => rfl) h

/-- Equal shapes give equal key sequences. -/
theorem seriesKeys_of_shape {A B : SeriesMap} (h : seriesShape A = seriesShape B) :
    seriesKeys A = seriesKeys B := by
  have h2 := congrArg (List.map Prod.fst) h
  simpa [seriesShape, seriesKeys, List.map_map, Function.comp] using h2

/-- `any` over a mapped list. -/
theorem any_map_eq {α β : Type} (l : List α) (f : α → β) (p : β → Bool) :
    (l.map f).any p = l.any (fun a => p (f a)) := by
  induction l with
  | nil => rfl
  | cons a as ih => simp [ih]

/-- The `hr` membership test only reads the key sequence. -/
theorem containsHr_congr {A B : SeriesMap} (h : seriesKeys A = seriesKeys B) :
    containsHr A = containsHr B := by
  have hA : containsHr A = (seriesKeys A).any (fun n => decide (n = SeriesName.hr)) := by
    rw [seriesKeys, any_map_eq]
    rfl
  have hB : containsHr B = (seriesKeys B).any (fun n => decide (n = SeriesName.hr)) := by
    rw [seriesKeys, any_map_eq]
    rfl
  rw [hA, hB, h]

/-- Point counts of the distance-indexed per-point series: one point per
trackpoint in every series, in both unit systems. -/
theorem seriesShape_perPointDistanceData (us : Bool) (lim : Option ℚ) (maxhr : ℚ)
    (tl : List Track) :
    seriesShape (perPointDistanceData us lim maxhr tl) =
      [(.elevation, tl.length), (.cor_elevation, tl.length), (.speed, tl.length),
       (.pace, tl.length), (.hr, tl.length), (.hr_p, tl.length), (.cadence, tl.length)] := by
  simp [perPointDistanceData, seriesShape, plotSeries, plotSeriesY1]

/-- x sequences of the time-indexed per-point series: every series is
keyed by the raw `time_elapsed` sequence, in both unit systems. -/
theorem seriesXs_perPointTimeData (us : Bool) (lim : Option ℚ) (maxhr : ℚ)
    (tl : List Track) :
    seriesXs (perPointTimeData us lim maxhr tl) =
      [(.elevation, tl.map (fun t => t.time_elapsed)),
       (.cor_elevation, tl.map (fun t => t.time_elapsed)),
       (.speed, tl.map (fun t => t.time_elapsed)),
       (.pace, tl.map (fun t => t.time_elapsed)),
       (.hr, tl.map (fun t => t.time_elapsed)),
       (.hr_p, tl.map (fun t => t.time_elapsed)),
       (.cadence, tl.map (fun t => t.time_elapsed))] := by
  simp [perPointTimeData, seriesXs, plotSeries, plotSeriesY1, List.map_map, Function.comp]

/-- Every time-indexed per-point series entry has the `time_elapsed`
sequence as its x values. -/
theorem perPointTimeData_xs {us : Bool} {lim : Option ℚ} {maxhr : ℚ} {tl : List Track}
    {n : SeriesName} {gd : GraphData}
    (h : (n, gd) ∈ perPointTimeData us lim maxhr tl) :
    gd.points.map Prod.fst = tl.map (fun t => t.time_elapsed) := by
  simp only [perPointTimeData, List.mem_cons, List.not_mem_nil, or_false] at h
  rcases h with h | h | h | h | h | h | h <;>
  · injection h with h1 h2
    subst h2
    simp [plotSeriesY1, plotSeries, List.map_map, Function.comp]

/-- `seriesXs` distributes over append. -/
theorem seriesXs_append (A B : SeriesMap) :
    seriesXs (A ++ B) = seriesXs A ++ seriesXs B := by
  simp [seriesXs]

/-- A trackpoint with all fields zero. -/
def track0 : Track where
  elapsed_distance := 0
  time_elapsed := 0
  ele := 0
  correctedElevation := 0
  hr := 0
  cadence := 0
  velocity := 0

/-- The names of the series left empty in the two series dictionaries of
a constructed activity. -/
def emptySeriesNames (r : InitResult) : List SeriesName :=
  match r with
  | .ok st => ((st.distance_data ++ st.time_data).filter
      (fun kv => kv.2.points.length == 0)).map (fun kv => kv.1)
  | _ => []

/-- Claim C3 counterexample: an activity with a one-row database answer,
no lap rows and no GPX file constructs successfully, and its final
series dictionaries contain the per-lap pace and speed bar series as
empty containers — they are created after `_init_graph_data`'s removal
step ran and are never subject to it. -/
theorem C3_counterexample :
    emptySeriesNames (activityInit (some 1) sampleEnv) =
      [.pace_lap, .speed_lap, .pace_lap, .speed_lap] := rfl

/-- Claim C3 (amended): the zero-point removal guarantee holds for the
series produced by `_init_graph_data` — every non-`hr_z` entry of the
maps it returns holds at least one point — but not for series created
afterwards: the heart-rate zone series and the per-lap bar series are
appended after the removal step and can remain empty. -/
theorem C3_series_removal (us : Bool) (lim : Option ℚ) (maxhr : ℚ)
    (zones : List Zone) (tracklist : Option (List Track)) (n : SeriesName) (gd : GraphData)
    (hn : n ≠ .hr_z)
    (hmem : (n, gd) ∈ (initGraphData us lim maxhr zones tracklist).1 ∨
            (n, gd) ∈ (initGraphData us lim maxhr zones tracklist).2) :
    gd.points ≠ [] := by
  rcases tracklist with _ | tl
  · simp [initGraphData] at hmem
  · simp only [initGraphData] at hmem
    by_cases hc : containsHr (removeEmpty (perPointDistanceData us lim maxhr tl)) = true
    · simp only [hc, if_true] at hmem
      rcases hmem with h | h <;> rcases List.mem_append.mp h with h2 | h2
      · exact points_ne_nil_of_mem_removeEmpty h2
      · simp only [List.mem_singleton] at h2
        injection h2 with h1 h2b
        exact absurd h1 hn
      · exact points_ne_nil_of_mem_removeEmpty h2
      · simp only [List.mem_singleton] at h2
        injection h2 with h1 h2b
        exact absurd h1 hn
    · simp [hc] at hmem
      rcases hmem with h | h <;> exact points_ne_nil_of_mem_removeEmpty h

/-- Witness for C3's amended statement: the elevation series of a
one-point tracklist survives removal and indeed has a point. -/
theorem C3_series_removal_witness :
    (plotSeriesY1 [((0 : ℚ), (0 : ℚ))]).points ≠ [] :=
  C3_series_removal false none 0 [] (some [track0]) .elevation _ (by decide)
    (Or.inl (by decide))

/-- Claim C9: the x value appended to each time-indexed series for a
trackpoint is the point's `time_elapsed`, never unit-converted; hence
running the per-point series generation on the same input under METRIC
and under IMPERIAL yields identical x-value sequences (and identical
series names) across the entire time-indexed mapping. -/
theorem C9_time_axis_noninterference (tl : List Track) (lim : Option ℚ) (maxhr : ℚ)
    (zones : List Zone) :
    seriesXs (initGraphData true lim maxhr zones (some tl)).2 =
      seriesXs (initGraphData false lim maxhr zones (some tl)).2 ∧
    (∀ (us : Bool) (n : SeriesName) (gd : GraphData),
      (n, gd) ∈ (initGraphData us lim maxhr zones (some tl)).2 → n ≠ .hr_z →
      gd.points.map Prod.fst = tl.map (fun t => t.time_elapsed)) := by
  have hX : seriesXs (perPointTimeData true lim maxhr tl) =
      seriesXs (perPointTimeData false lim maxhr tl) := by
    rw [seriesXs_perPointTimeData, seriesXs_perPointTimeData]
  have hXr := seriesXs_removeEmpty hX
  have hS : seriesShape (perPointDistanceData true lim maxhr tl) =
      seriesShape (perPointDistanceData false lim maxhr tl) := by
    rw [seriesShape_perPointDistanceData, seriesShape_perPointDistanceData]
  have hC := containsHr_congr (seriesKeys_of_shape (seriesShape_removeEmpty hS))
  constructor
  · simp only [initGraphData]
    rw [hC]
    by_cases hc : containsHr (removeEmpty (perPointDistanceData false lim maxhr tl)) = true
    · simp only [hc, if_true]
      rw [seriesXs_append, seriesXs_append, hXr]
    · simp [hc, hXr]
  · intro us n gd hmem hn
    simp only [initGraphData] at hmem
    by_cases hc : containsHr (removeEmpty (perPointDistanceData us lim maxhr tl)) = true
    · simp only [hc, if_true] at hmem
      rcases List.mem_append.mp hmem with h | h
      · exact perPointTimeData_xs (mem_of_mem_removeEmpty h)
      · simp only [List.mem_singleton] at h
        injection h with h1 h2
        exact absurd h1 hn
    · simp [hc] at hmem
      exact perPointTimeData_xs (mem_of_mem_removeEmpty hmem)

/-- Witness for C9 on a concrete one-point tracklist: the two-run x
sequences agree and the elevation time series is keyed by the point's
time. -/
theorem C9_time_axis_noninterference_witness :
    seriesXs (initGraphData true none 0 [] (some [track0])).2 =
      seriesXs (initGraphData false none 0 [] (some [track0])).2 ∧
    (plotSeriesY1 [((0 : ℚ), (0 : ℚ))]).points.map Prod.fst =
      [track0].map (fun t => t.time_elapsed) := by
  constructor
  · exact (C9_time_axis_noninterference [track0] none 0 []).1
  · exact (C9_time_axis_noninterference [track0] none 0 []).2 false .elevation _
      (by decide) (by decide)

end Pytrainer
